import Mathlib

/-!
Verification of the Clever API client
(`src/custom_components/clever_api/clever/clever.py`).

The file shallowly embeds the client: the mutable `Clever` dataclass
becomes an explicit state record, each `async` method becomes a pure
function from the state and an oracle describing the outcome of the one
underlying HTTP call to a result together with the new state and the
list of requests actually issued.  Response payloads are embedded as
typed records holding exactly the fields the code reads.
-/

namespace CleverApi

/-- Exceptions that can flow out of the client.  `cleverError` and
`cleverConnectionError` embed the two classes of
`clever/exceptions.py`; `keyError` embeds the Python built-in raised by
a failed dictionary lookup; `otherExc` stands for any other underlying
exception, identified by an opaque tag so that re-raising unchanged is
observable. -/
inductive PyError where
  | cleverError (msg : String)
  | cleverConnectionError (msg : String)
  | keyError (key : String)
  | otherExc (tag : String)
  deriving DecidableEq, Repr

/-- Embedding of the external `aiohttp.ClientSession`.  `releaseCount`
counts how many times the underlying connection resource was actually
released. -/
structure ClientSession where
  closed : Bool
  releaseCount : Nat
  deriving DecidableEq, Repr

/-- Modelled from the spec: `aiohttp` is an external library; its
`ClientSession.close()` releases the connection resource only when the
session is not already closed, so a second close is a no-op. -/
def ClientSession.close (s : ClientSession) : ClientSession :=
  if s.closed then s else { closed := true, releaseCount := s.releaseCount + 1 }

/-- Session returned by the `ClientSession()` constructor. -/
def ClientSession.new : ClientSession := { closed := false, releaseCount := 0 }

/-- State of the `Clever` dataclass (lines 39-45 of the source). -/
structure Clever where
  request_timeout : Nat := 10
  session : Option ClientSession := none
  _close_session : Bool := false
  deriving DecidableEq, Repr

/-- Outcome of the single underlying `session.request` call inside
`_request`, as seen by the surrounding `try` block: a decoded JSON
response of type `α`, an `asyncio.TimeoutError`, or any other
exception. -/
inductive CallOutcome (α : Type) where
  | ok (resp : α)
  | timeout
  | exc (e : PyError)
  deriving DecidableEq, Repr

/-- Record of one HTTP request issued to the backend: URL, method and
the optional JSON body. -/
structure ReqEntry where
  url : String
  method : String
  data : Option (List (String × String)) := none
  deriving DecidableEq, Repr

/-- Session-creating part of `_request` (lines 61-63): lazily create
the session on first use and record ownership. -/
def Clever.ensureSession (c : Clever) : Clever :=
  match c.session with
  | none => { c with session := some ClientSession.new, _close_session := true }
  | some _ => c

/-- Embedding of `Clever._request` (lines 47-84).  The function issues
exactly one underlying request (no retry); a timeout is translated to
`CleverConnectionError` with a fixed message; every other exception is
re-raised unchanged.  Returns the result, the new state and the list of
requests issued. -/
def Clever._request {α : Type} (c : Clever) (url : String)
    (method : String := "GET") (data : Option (List (String × String)) := none)
    (outcome : CallOutcome α) :
    Except PyError α × Clever × List ReqEntry :=
  let c' := c.ensureSession
  let issued : List ReqEntry := [{ url := url, method := method, data := data }]
  match outcome with
  | .ok resp => (.ok resp, c', issued)
  | .timeout =>
      (.error (.cleverConnectionError "Timeout while connecting to Clever backend"),
       c', issued)
  | .exc e => (.error e, c', issued)

/-- Embedding of `Clever.close` (lines 86-90): the session is closed
only when it exists and `_close_session` is set. -/
def Clever.close (c : Clever) : Clever :=
  match c.session with
  | some s => if c._close_session then { c with session := some s.close } else c
  | none => c

/-- Embedding of `Clever.__aenter__` (lines 92-94): returns the
instance itself. -/
def Clever.aenter (c : Clever) : Clever := c

/-- Embedding of `Clever.__aexit__` (lines 96-98): unconditionally
invokes `close`, whatever exception information the runtime passes. -/
def Clever.aexit (c : Clever) (_exc_inf : Option PyError) : Clever :=
  c.close

/-! ### URL parsing and endpoint templates -/

/-- Text after the first occurrence of `sep`, or `none` when `sep`
does not occur. -/
def afterChar (sep : Char) : List Char → Option (List Char)
  | [] => none
  | c :: cs => if c = sep then some cs else afterChar sep cs

/-- Split a character list on every occurrence of `sep`. -/
def splitOnChar (sep : Char) : List Char → List (List Char)
  | [] => [[]]
  | c :: cs =>
      if c = sep then [] :: splitOnChar sep cs
      else
        match splitOnChar sep cs with
        | [] => [[c]]
        | g :: gs => (c :: g) :: gs

/-- Split a character list at the first occurrence of `sep`; when `sep`
is absent the second component is empty. -/
def splitFirst (sep : Char) : List Char → List Char × List Char
  | [] => ([], [])
  | c :: cs =>
      if c = sep then ([], cs)
      else
        let p := splitFirst sep cs
        (c :: p.1, p.2)

/-- Embedding of `yarl.URL(link).query`: the part of the link after the
first question mark, split on ampersands, each piece split at its first
equals sign into a key and a value; a link without a question mark has
an empty query. -/
def queryParams (link : String) : List (String × String) :=
  match afterChar (Char.ofNat 63) link.toList with
  | none => []
  | some q =>
      (splitOnChar (Char.ofNat 38) q).map fun p =>
        let kv := splitFirst (Char.ofNat 61) p
        (String.mk kv.1, String.mk kv.2)

/-- Embedding of the dictionary lookup `query["secretCode"]`: `none`
plays the role of a raised `KeyError`. -/
def queryLookup (ps : List (String × String)) (k : String) : Option String :=
  (ps.find? (fun kv => kv.1 = k)).map (fun kv => kv.2)

/-- Conversion a Python f-string or `str.format` applies to a value of
the optional `str` type: the `None` value prints as the literal text
`"None"`. -/
def pyStr (v : Option String) : String :=
  match v with
  | none => "None"
  | some s => s

/-- URL template with one `api_token` placeholder, as used by the four
subscription endpoints of `clever/urls.py`. -/
structure UrlTemplate where
  before : String
  after : String
  deriving DecidableEq, Repr

/-- Embedding of `template.format(api_token=...)` on a template whose
single placeholder is `api_token`. -/
def UrlTemplate.format (t : UrlTemplate) (api_token : Option String) : String :=
  t.before ++ pyStr api_token ++ t.after

/-- Modelled from the spec: `clever/urls.py` is not under `src/`; the
spec says the endpoint paths are configuration data and only states
their parameter structure, so the endpoint constants below carry
representative host and path text. -/
def VERIFY_LINK : String :=
  "https://mobileapp-backend.clever.dk/api/mobile/customer/verifyMagicLink"

/-- Modelled from the spec: endpoint of the obtain-user-secret POST
call, a plain URL with no query parameters. -/
def OBTAIN_USER_SECRET : String :=
  "https://mobileapp-backend.clever.dk/api/mobile/customer/registerProfile"

/-- Modelled from the spec: endpoint of the obtain-api-token GET call,
extended by the code with `secret` and `email` query parameters. -/
def OBTAIN_API_TOKEN : String :=
  "https://mobileapp-backend.clever.dk/api/mobile/customer/obtainApiToken"

/-- Modelled from the spec: user-info endpoint templated with
`{api_token}`. -/
def GET_USER_INFO : UrlTemplate :=
  { before := "https://mobileapp-backend.clever.dk/api/mobile/user/",
    after := "/info" }

/-- Modelled from the spec: transactions endpoint templated with
`{api_token}`. -/
def GET_TRANSACTIONS : UrlTemplate :=
  { before := "https://mobileapp-backend.clever.dk/api/mobile/user/",
    after := "/transactions" }

/-- Modelled from the spec: EVSE-info endpoint templated with
`{api_token}`. -/
def GET_EVSE_INFO : UrlTemplate :=
  { before := "https://mobileapp-backend.clever.dk/api/mobile/user/",
    after := "/evse" }

/-- Modelled from the spec: energy-surcharge endpoint templated with
`{api_token}`. -/
def GET_ENERGITILLAEG : UrlTemplate :=
  { before := "https://mobileapp-backend.clever.dk/api/mobile/user/",
    after := "/energitillaeg" }

/-! ### Response shapes and result models

Modelled from the spec: `clever/models.py` is not under `src/`; the
spec describes each entity by the fields the flow reads, so the records
below carry exactly those fields. -/

/-- Decoded JSON body of the verify-link response: the verification
result string that `verify_link` compares against `"Verified"`. -/
structure VerifyLinkResp where
  result : String
  deriving DecidableEq, Repr

/-- Modelled from the spec: the `VerifyLink` model after the code sets
`resp["secret_code"]`, carrying the extracted secret code and the
verification result. -/
structure VerifyLinkModel where
  secret_code : String
  result : String
  deriving DecidableEq, Repr

/-- Decoded JSON body of the obtain-user-secret response: the
`userSecret` field and the nested `verificationResponse.result`
string. -/
structure UserSecretResp where
  userSecret : String
  verificationResult : String
  deriving DecidableEq, Repr

/-- Decoded JSON body of the obtain-api-token response: the optional
`data` payload and the `status_message` field. -/
structure ApiTokenResp where
  data : Option (List (String × String))
  status_message : String
  deriving DecidableEq, Repr

/-! ### Auth flow (class `Auth`, lines 101-148) -/

namespace Auth

/-- Embedding of `Auth.verify_link` (lines 110-120): extract the
`secretCode` query parameter of the link (a missing key raises
`KeyError` before any request is issued), issue the GET request, inject
the secret code into the decoded model, and require the result field to
equal `"Verified"`. -/
def verify_link (c : Clever) (auth_link : String) (email : String)
    (outcome : CallOutcome VerifyLinkResp) :
    Except PyError VerifyLinkModel × Clever × List ReqEntry :=
  match queryLookup (queryParams auth_link) "secretCode" with
  | none => (.error (.keyError "secretCode"), c, [])
  | some secret_code =>
      let url := VERIFY_LINK ++ "?token=" ++ secret_code ++ "&email=" ++ email
      match c._request url "GET" none outcome with
      | (.error e, c', issued) => (.error e, c', issued)
      | (.ok resp, c', issued) =>
          let model : VerifyLinkModel :=
            { secret_code := secret_code, result := resp.result }
          if model.result != "Verified" then
            (.error (.cleverError model.result), c', issued)
          else
            (.ok model, c', issued)

/-- Embedding of `Auth.obtain_user_secret` (lines 122-138): POST the
four-field JSON body and fail with `CleverError` carrying the nested
verification result when the returned user secret equals the literal
string `"null"`. -/
def obtain_user_secret (c : Clever) (email first_name last_name secret_code : String)
    (outcome : CallOutcome UserSecretResp) :
    Except PyError UserSecretResp × Clever × List ReqEntry :=
  let payload := [("email", email), ("firstName", first_name),
                  ("lastName", last_name), ("token", secret_code)]
  match c._request OBTAIN_USER_SECRET "POST" (some payload) outcome with
  | (.error e, c', issued) => (.error e, c', issued)
  | (.ok resp, c', issued) =>
      if resp.userSecret == "null" then
        (.error (.cleverError resp.verificationResult), c', issued)
      else
        (.ok resp, c', issued)

/-- Embedding of `Auth.obtain_api_token` (lines 140-148): GET with
`secret` and `email` query parameters and fail with `CleverError`
carrying `status_message` when the `data` payload is absent. -/
def obtain_api_token (c : Clever) (user_secret email : String)
    (outcome : CallOutcome ApiTokenResp) :
    Except PyError ApiTokenResp × Clever × List ReqEntry :=
  let url := OBTAIN_API_TOKEN ++ "?secret=" ++ user_secret ++ "&email=" ++ email
  match c._request url "GET" none outcome with
  | (.error e, c', issued) => (.error e, c', issued)
  | (.ok resp, c', issued) =>
      if resp.data.isNone then
        (.error (.cleverError resp.status_message), c', issued)
      else
        (.ok resp, c', issued)

end Auth

/-! ### Subscription queries (class `Subscription`, lines 151-183) -/

/-- State of the `Subscription` dataclass: the inherited `Clever` state
plus the `api_token` field, whose default value is `None` although the
declared type is `str` (line 155). -/
structure Subscription where
  toClever : Clever
  api_token : Option String := none
  deriving DecidableEq, Repr

namespace Subscription

/-- Embedding of `Subscription.get_user_info` (lines 157-162). -/
def get_user_info (sub : Subscription)
    (outcome : CallOutcome (List (String × String))) :
    Except PyError (List (String × String)) × Clever × List ReqEntry :=
  sub.toClever._request (GET_USER_INFO.format sub.api_token) "GET" none outcome

/-- Embedding of `Subscription.get_transactions` (lines 164-169): the
`box_id` parameter is accepted but never used when building the
request. -/
def get_transactions (sub : Subscription) (box_id : Option String)
    (outcome : CallOutcome (List (String × String))) :
    Except PyError (List (String × String)) × Clever × List ReqEntry :=
  sub.toClever._request (GET_TRANSACTIONS.format sub.api_token) "GET" none outcome

/-- Embedding of `Subscription.get_evse_info` (lines 171-176). -/
def get_evse_info (sub : Subscription)
    (outcome : CallOutcome (List (String × String))) :
    Except PyError (List (String × String)) × Clever × List ReqEntry :=
  sub.toClever._request (GET_EVSE_INFO.format sub.api_token) "GET" none outcome

/-- Embedding of `Subscription.get_energitillaeg` (lines 178-183). -/
def get_energitillaeg (sub : Subscription)
    (outcome : CallOutcome (List (String × String))) :
    Except PyError (List (String × String)) × Clever × List ReqEntry :=
  sub.toClever._request (GET_ENERGITILLAEG.format sub.api_token) "GET" none outcome

end Subscription

/-! ### Concrete states used in closed instantiations -/

/-- Open session with no release so far, standing for a session the
caller supplies. -/
def sampleSession : ClientSession := { closed := false, releaseCount := 0 }

/-- Client holding an externally supplied session: the ownership flag
is false, as built by the dataclass constructor. -/
def clientExternal : Clever :=
  { request_timeout := 10, session := some sampleSession, _close_session := false }

/-- Client whose session was created by `_request` itself: the
ownership flag is true. -/
def clientOwned : Clever :=
  { request_timeout := 10, session := some sampleSession, _close_session := true }

/-! ### Claim theorems -/

/-- C1: for every auth link whose `secretCode` query parameter is `s`
and every decoded response, `verify_link` returns successfully exactly
when the result field equals `"Verified"`, the returned record then
carries secret code `s`, and any other result string is raised as a
`CleverError` whose message is that string. -/
theorem verify_link_result_spec (c : Clever) (auth_link email s : String)
    (resp : VerifyLinkResp)
    (h : queryLookup (queryParams auth_link) "secretCode" = some s) :
    (resp.result = "Verified" →
      (Auth.verify_link c auth_link email (.ok resp)).1 =
        .ok { secret_code := s, result := resp.result }) ∧
    (resp.result ≠ "Verified" →
      (Auth.verify_link c auth_link email (.ok resp)).1 =
        .error (.cleverError resp.result)) := by
  unfold Auth.verify_link
  rw [h]
  simp only [Clever._request]
  constructor
  · intro hv
    simp [hv]
  · intro hv
    simp [hv]

/-- C1 witness: a concrete link carrying `secretCode=abc123`, checked
on a `"Verified"` and on an `"Expired"` response. -/
theorem verify_link_result_spec_witness :
    (Auth.verify_link {} "https://clever.invalid/app?secretCode=abc123" "a@b.dk"
        (.ok { result := "Verified" })).1 =
      .ok { secret_code := "abc123", result := "Verified" } ∧
    (Auth.verify_link {} "https://clever.invalid/app?secretCode=abc123" "a@b.dk"
        (.ok { result := "Expired" })).1 =
      .error (.cleverError "Expired") := by
  refine ⟨?_, ?_⟩
  · exact (verify_link_result_spec {} _ "a@b.dk" "abc123" _ (by decide)).1 rfl
  · exact (verify_link_result_spec {} _ "a@b.dk" "abc123" _ (by decide)).2 (by decide)

/-- C2: `obtain_user_secret` raises a `CleverError` exactly when the
returned `userSecret` equals the literal string `"null"`, the message
then being the nested verification result; otherwise it returns the
record with that user secret. -/
theorem obtain_user_secret_spec (c : Clever)
    (email first_name last_name secret_code : String) (resp : UserSecretResp) :
    (resp.userSecret = "null" →
      (Auth.obtain_user_secret c email first_name last_name secret_code
          (.ok resp)).1 =
        .error (.cleverError resp.verificationResult)) ∧
    (resp.userSecret ≠ "null" →
      (Auth.obtain_user_secret c email first_name last_name secret_code
          (.ok resp)).1 = .ok resp) := by
  unfold Auth.obtain_user_secret
  simp only [Clever._request]
  constructor
  · intro hv
    simp [hv]
  · intro hv
    simp [hv]

/-- C2 witness: the two responses of the spec, one with user secret
`"null"` and nested result `"Denied"`, one with user secret
`"abc123"`. -/
theorem obtain_user_secret_spec_witness :
    (Auth.obtain_user_secret {} "a@b.dk" "Ann" "Berg" "code"
        (.ok { userSecret := "null", verificationResult := "Denied" })).1 =
      .error (.cleverError "Denied") ∧
    (Auth.obtain_user_secret {} "a@b.dk" "Ann" "Berg" "code"
        (.ok { userSecret := "abc123", verificationResult := "ok" })).1 =
      .ok { userSecret := "abc123", verificationResult := "ok" } := by
  refine ⟨?_, ?_⟩
  · exact (obtain_user_secret_spec {} "a@b.dk" "Ann" "Berg" "code" _).1 rfl
  · exact (obtain_user_secret_spec {} "a@b.dk" "Ann" "Berg" "code" _).2 (by decide)

/-- C3: `obtain_api_token` raises a `CleverError` exactly when the
`data` payload is absent, the message then being `status_message`;
with a present payload it returns successfully. -/
theorem obtain_api_token_spec (c : Clever) (user_secret email : String)
    (resp : ApiTokenResp) :
    (resp.data = none →
      (Auth.obtain_api_token c user_secret email (.ok resp)).1 =
        .error (.cleverError resp.status_message)) ∧
    (∀ d, resp.data = some d →
      (Auth.obtain_api_token c user_secret email (.ok resp)).1 = .ok resp) := by
  unfold Auth.obtain_api_token
  simp only [Clever._request]
  constructor
  · intro hv
    simp [hv]
  · intro d hv
    simp [hv]

/-- C3 witness: the two responses of the spec, one with an absent
payload and status message `"No token"`, one with a token payload. -/
theorem obtain_api_token_spec_witness :
    (Auth.obtain_api_token {} "sec" "a@b.dk"
        (.ok { data := none, status_message := "No token" })).1 =
      .error (.cleverError "No token") ∧
    (Auth.obtain_api_token {} "sec" "a@b.dk"
        (.ok { data := some [("token", "xyz")], status_message := "" })).1 =
      .ok { data := some [("token", "xyz")], status_message := "" } := by
  refine ⟨?_, ?_⟩
  · exact (obtain_api_token_spec {} "sec" "a@b.dk" _).1 rfl
  · exact (obtain_api_token_spec {} "sec" "a@b.dk" _).2 [("token", "xyz")] rfl

/-- C4: `_request` translates a timeout of the underlying call, and
only a timeout, to `CleverConnectionError` with the fixed message
`"Timeout while connecting to Clever backend"`; every other exception
is re-raised unchanged; exactly one underlying request is issued, so
there is no retry. -/
theorem request_error_spec {α : Type} (c : Clever) (url method : String)
    (data : Option (List (String × String))) (outcome : CallOutcome α) :
    ((c._request url method data outcome).1 =
      match outcome with
      | .ok resp => .ok resp
      | .timeout =>
          .error (.cleverConnectionError "Timeout while connecting to Clever backend")
      | .exc e => .error e) ∧
    (∀ m, (c._request url method data outcome).1 =
        .error (.cleverConnectionError m) →
      (outcome = .timeout ∧ m = "Timeout while connecting to Clever backend") ∨
      outcome = .exc (.cleverConnectionError m)) ∧
    (c._request url method data outcome).2.2.length = 1 := by
  refine ⟨?_, ?_, ?_⟩
  · cases outcome <;> rfl
  · intro m hm
    cases outcome with
    | ok resp => exact absurd hm (by simp [Clever._request])
    | timeout =>
        left
        refine ⟨rfl, ?_⟩
        simpa [Clever._request] using hm.symm
    | exc e =>
        right
        have he : e = .cleverConnectionError m := by
          simpa [Clever._request] using hm
        rw [he]
  · cases outcome <;> rfl

/-- C4 witness: a fresh client at a timeout outcome, checking the
fixed message, the only-translation direction and the single issued
request. -/
theorem request_error_spec_witness :
    (Clever._request {} "https://clever.invalid/x" "GET" none
        (CallOutcome.timeout (α := Unit))).1 =
      .error (.cleverConnectionError "Timeout while connecting to Clever backend") ∧
    ((CallOutcome.timeout (α := Unit) = .timeout ∧
        "Timeout while connecting to Clever backend" =
          "Timeout while connecting to Clever backend") ∨
      CallOutcome.timeout (α := Unit) =
        .exc (.cleverConnectionError "Timeout while connecting to Clever backend")) ∧
    (Clever._request {} "https://clever.invalid/x" "GET" none
        (CallOutcome.timeout (α := Unit))).2.2.length = 1 := by
  have h := request_error_spec (α := Unit) {} "https://clever.invalid/x" "GET" none
    .timeout
  exact ⟨h.1, h.2.1 "Timeout while connecting to Clever backend" h.1, h.2.2⟩

/-- C5: `close` never releases an externally supplied session (the
ownership flag is false), however many times it is invoked; a
self-created session (ownership flag true) is released exactly once
even when `close` is invoked twice. -/
theorem close_ownership_spec (c : Clever) (s : ClientSession) :
    (c._close_session = false → ∀ n : Nat, Clever.close^[n] c = c) ∧
    (c.session = some s → c._close_session = true → s.closed = false →
      (c.close).session =
        some ({ closed := true, releaseCount := s.releaseCount + 1 }) ∧
      ((c.close).close).session =
        some ({ closed := true, releaseCount := s.releaseCount + 1 })) := by
  constructor
  · intro hflag n
    have hfix : c.close = c := by
      unfold Clever.close
      cases hs : c.session with
      | none => rfl
      | some s0 => simp [hflag]
    exact Function.iterate_fixed hfix n
  · intro hs hflag hclosed
    have h1 : c.close = { c with session := some ({ closed := true, releaseCount := s.releaseCount + 1 }) } := by
      unfold Clever.close
      rw [hs]
      simp [hflag, ClientSession.close, hclosed]
    have h2 : ((c.close).close).session =
        some ({ closed := true, releaseCount := s.releaseCount + 1 }) := by
      rw [h1]
      unfold Clever.close
      simp [hflag, ClientSession.close]
    exact ⟨by rw [h1], h2⟩

/-- C5 witness: an externally supplied open session is untouched by
three closes; a self-created open session shows release count one
after one close and after two closes. -/
theorem close_ownership_spec_witness :
    Clever.close^[3] clientExternal = clientExternal ∧
    (Clever.close clientOwned).session =
      some ({ closed := true, releaseCount := 1 }) ∧
    (Clever.close (Clever.close clientOwned)).session =
      some ({ closed := true, releaseCount := 1 }) := by
  refine ⟨(close_ownership_spec clientExternal sampleSession).1 rfl 3, ?_, ?_⟩
  · exact ((close_ownership_spec clientOwned sampleSession).2 rfl rfl rfl).1
  · exact ((close_ownership_spec clientOwned sampleSession).2 rfl rfl rfl).2

/-- C6: entering the usage scope returns the instance itself, and
exiting invokes `close` on every exit path, whatever exception
information the exit receives. -/
theorem scope_enter_exit_spec (c : Clever) (exc : Option PyError) :
    c.aenter = c ∧ c.aexit exc = c.close :=
  ⟨rfl, rfl⟩

/-- C7: a request on a client with no session creates one and sets the
ownership flag; a request on a client with a session leaves the state
unchanged, so an externally supplied session is never replaced and its
flag stays false; after the first request the state is stable, so the
flag is true exactly when the session was self-created, after every
operation. -/
theorem session_ownership_invariant {α : Type} (c : Clever) (url method : String)
    (data : Option (List (String × String))) (outcome : CallOutcome α) :
    ((c._request url method data outcome).2.1 = c.ensureSession) ∧
    (c.session = none →
      c.ensureSession.session = some ClientSession.new ∧
      c.ensureSession._close_session = true) ∧
    (∀ s, c.session = some s → c.ensureSession = c) ∧
    (∀ n : Nat, Clever.ensureSession^[n + 1] c = c.ensureSession) := by
  have hsome : ∀ d : Clever, ∀ s, d.session = some s → d.ensureSession = d := by
    intro d s hs
    unfold Clever.ensureSession
    rw [hs]
  have hidem : c.ensureSession.ensureSession = c.ensureSession := by
    cases hs : c.session with
    | none =>
        apply hsome _ ClientSession.new
        unfold Clever.ensureSession
        rw [hs]
    | some s0 =>
        rw [hsome c s0 hs]
        exact hsome c s0 hs
  refine ⟨?_, ?_, hsome c, ?_⟩
  · cases outcome <;> rfl
  · intro hs
    unfold Clever.ensureSession
    rw [hs]
    exact ⟨rfl, rfl⟩
  · intro n
    induction n with
    | zero => rfl
    | succ k ih =>
        rw [Function.iterate_succ_apply', ih, hidem]

/-- C7 witness: a fresh client creates its session on first use and
sets the flag; a client with an externally supplied session is left
unchanged by any number of requests. -/
theorem session_ownership_invariant_witness :
    (({} : Clever).ensureSession.session = some ClientSession.new ∧
      ({} : Clever).ensureSession._close_session = true) ∧
    clientExternal.ensureSession = clientExternal ∧
    Clever.ensureSession^[4] clientExternal = clientExternal.ensureSession := by
  have h1 := session_ownership_invariant (α := Unit) {} "u" "GET" none (.ok ())
  have hext := session_ownership_invariant (α := Unit) clientExternal
    "u" "GET" none (.ok ())
  exact ⟨h1.2.1 rfl, hext.2.2.1 sampleSession rfl, hext.2.2.2 3⟩

/-- C8: two `get_transactions` calls on the same instance with the
same backend response produce identical outputs, whatever the two
`box_id` arguments are: the URL issued, the new state and the returned
transaction list all coincide, since the parameter is never read. -/
theorem get_transactions_ignores_box_id (sub : Subscription)
    (b1 b2 : Option String) (outcome : CallOutcome (List (String × String))) :
    sub.get_transactions b1 outcome = sub.get_transactions b2 outcome := rfl

/-- C9: a link without a `secretCode` query parameter makes
`verify_link` fail with a `KeyError` (not a `CleverError` and not a
`CleverConnectionError`), with the client state unchanged and no
request issued. -/
theorem verify_link_missing_secret_code (c : Clever)
    (auth_link email : String) (outcome : CallOutcome VerifyLinkResp)
    (h : queryLookup (queryParams auth_link) "secretCode" = none) :
    Auth.verify_link c auth_link email outcome =
      (.error (.keyError "secretCode"), c, []) := by
  unfold Auth.verify_link
  rw [h]

/-- C9 witness: a concrete link whose query carries only an unrelated
parameter, at a client holding an externally supplied session. -/
theorem verify_link_missing_secret_code_witness :
    Auth.verify_link clientExternal "https://clever.invalid/app?foo=1" "a@b.dk"
        (.ok { result := "Verified" }) =
      (.error (.keyError "secretCode"), clientExternal, []) :=
  verify_link_missing_secret_code clientExternal "https://clever.invalid/app?foo=1"
    "a@b.dk" (.ok { result := "Verified" }) (by decide)

/-- C10: on a `Subscription` whose `api_token` was never set the field
defaults to `None`, and each of the four query operations still formats
the token into its URL template, yielding a URL containing the literal
text `"None"`, and issues exactly that request instead of failing
fast. -/
theorem default_token_formats_none (c : Clever) (sub : Subscription)
    (h : sub.api_token = none)
    (outcome : CallOutcome (List (String × String))) (b : Option String) :
    ({ toClever := c } : Subscription).api_token = none ∧
    (∃ l r, GET_USER_INFO.format sub.api_token = l ++ "None" ++ r) ∧
    (∃ l r, GET_TRANSACTIONS.format sub.api_token = l ++ "None" ++ r) ∧
    (∃ l r, GET_EVSE_INFO.format sub.api_token = l ++ "None" ++ r) ∧
    (∃ l r, GET_ENERGITILLAEG.format sub.api_token = l ++ "None" ++ r) ∧
    (sub.get_user_info outcome).2.2 =
      [{ url := GET_USER_INFO.format none, method := "GET", data := none }] ∧
    (sub.get_transactions b outcome).2.2 =
      [{ url := GET_TRANSACTIONS.format none, method := "GET", data := none }] ∧
    (sub.get_evse_info outcome).2.2 =
      [{ url := GET_EVSE_INFO.format none, method := "GET", data := none }] ∧
    (sub.get_energitillaeg outcome).2.2 =
      [{ url := GET_ENERGITILLAEG.format none, method := "GET", data := none }] := by
  refine ⟨rfl, ?_, ?_, ?_, ?_, ?_, ?_, ?_, ?_⟩
  · exact ⟨GET_USER_INFO.before, GET_USER_INFO.after, by rw [h]; rfl⟩
  · exact ⟨GET_TRANSACTIONS.before, GET_TRANSACTIONS.after, by rw [h]; rfl⟩
  · exact ⟨GET_EVSE_INFO.before, GET_EVSE_INFO.after, by rw [h]; rfl⟩
  · exact ⟨GET_ENERGITILLAEG.before, GET_ENERGITILLAEG.after, by rw [h]; rfl⟩
  · unfold Subscription.get_user_info
    rw [h]
    cases outcome <;> rfl
  · unfold Subscription.get_transactions
    rw [h]
    cases outcome <;> rfl
  · unfold Subscription.get_evse_info
    rw [h]
    cases outcome <;> rfl
  · unfold Subscription.get_energitillaeg
    rw [h]
    cases outcome <;> rfl

/-- C10 witness: a subscription built over a fresh client with the
field left at its default, checked on the transactions operation URL
text. -/
theorem default_token_formats_none_witness :
    ({ toClever := {} } : Subscription).api_token = none ∧
    (∃ l r, GET_TRANSACTIONS.format ({ toClever := {} } : Subscription).api_token =
      l ++ "None" ++ r) ∧
    (({ toClever := {} } : Subscription).get_transactions none
        (.ok [("data", "x")])).2.2 =
      [{ url := GET_TRANSACTIONS.format none, method := "GET", data := none }] := by
  have h := default_token_formats_none {} { toClever := {} } rfl
    (.ok [("data", "x")]) none
  exact ⟨h.1, h.2.2.1, h.2.2.2.2.2.2.1⟩

end CleverApi
